import Mathlib

/-!
Verification of the chatgpt-relay core: the response-completion detection
state machine (`src/chatgpt.js`, `waitForResponse` / `checkErrorStates` /
`sendPromptAndWait`), the promise-chained single-flight request queue
(`src/server.js`, `queueRequest`), the locator-resolution policy
(`SELECTORS` unions with `.first()`), and the HTTP `/ask` validation
(`src/server.js`, `handleRequest`).

Modelling conventions:
- Strings from the page are `List Char` (JS strings), with `trimChars`
  modelling `String.prototype.trim`.
- The UI is an adversarial observation stream: `Obs` is what one poll of
  the stabilizing loop can observe, `trace : Nat → Obs` gives the
  observation at each poll iteration.
- Wall-clock time is tracked as the `elapsed` field of the loop state;
  each normal poll iteration costs `pollIntervalMs` (the
  `page.waitForTimeout(250)` at the bottom of the loop) and each
  continue-button iteration costs `continuePauseMs` (the
  `waitForTimeout(500)` in that branch).  Sub-poll check latencies are
  abstracted to zero.
- Promises are denoted by their settle time and outcome; `thenP`/`catchP`
  give the standard JS semantics of `.then`/`.catch` used by the queue.
-/

namespace ChatgptRelay

/-! ## JS string trimming -/

/-- Whitespace class used by `String.prototype.trim` (the common members:
space, tab, line feed, carriage return, vertical tab, form feed). -/
def isJsWhitespace (c : Char) : Bool :=
  c == ' ' || c == '\t' || c == '\n' || c == '\r' || c == '\x0b' || c == '\x0c'

/-- Model of `s.trim()`: drop leading and trailing whitespace. -/
def trimChars (s : List Char) : List Char :=
  ((s.dropWhile isJsWhitespace).reverse.dropWhile isJsWhitespace).reverse

/-- The right-trimming half of `trimChars`, split out for the lemmas
about trimming. -/
def rtrimChars (s : List Char) : List Char :=
  (s.reverse.dropWhile isJsWhitespace).reverse

/-! ## Detector data model (src/chatgpt.js) -/

/-- One poll's worth of observable UI state, as read by the stabilizing
loop of `waitForResponse`: the page url (`page.url()`), visibility of the
login button, error toast (with its text), and "Continue generating"
button, and the list of assistant-message texts currently in the DOM
(`page.locator(SELECTORS.assistantMessage)`), in document order. -/
structure Obs where
  url : List Char
  loginVisible : Bool
  toastVisible : Bool
  toastText : List Char
  continueVisible : Bool
  msgs : List (List Char)
deriving DecidableEq

/-- Terminal outcome of `waitForResponse` (src/chatgpt.js lines 142-217):
`done` is a normal return of response text; the others are the thrown
errors, classified by message. -/
inductive DetectorResult where
  | done (text : List Char)
  | sessionExpired
  | upstreamError (detail : List Char)
  | timeoutError
  | noAssistantMessage
deriving DecidableEq

/-- Error classification produced by `checkErrorStates`. -/
inductive PollErr where
  | sessionExpired
  | upstreamError (detail : List Char)
deriving DecidableEq

/-- Embed a poll-time error into the detector's result type (the thrown
error propagates out of `waitForResponse`). -/
def PollErr.toResult : PollErr → DetectorResult
  | .sessionExpired => .sessionExpired
  | .upstreamError d => .upstreamError d

/-- Whether the first list is a literal prefix of the second. -/
def headMatches : List Char → List Char → Bool
  | [], _ => true
  | _ :: _, [] => false
  | a :: as, b :: bs => a == b && headMatches as bs

/-- Whether `needle` occurs contiguously inside `hay`. -/
def containsSeq (needle : List Char) : List Char → Bool
  | [] => needle.isEmpty
  | b :: bs => headMatches needle (b :: bs) || containsSeq needle bs

/-- Model of `url.includes(needle)`. -/
def urlIncludes (url needle : List Char) : Bool :=
  containsSeq needle url

/-- Model of `checkErrorStates` (src/chatgpt.js lines 223-242): auth URL
check first, then login-button visibility, then error toast (whose trimmed
text becomes the error detail).  `none` means no error detected. -/
def checkErrorStates (o : Obs) : Option PollErr :=
  if urlIncludes o.url ("/auth".toList) || urlIncludes o.url ("login.openai.com".toList) then
    some .sessionExpired
  else if o.loginVisible then
    some .sessionExpired
  else if o.toastVisible then
    some (.upstreamError (trimChars o.toastText))
  else
    none

/-- Model of `(await lastAssistant.innerText().catch(() => '')).trim()`:
the locator `page.locator(SELECTORS.assistantMessage).last()` re-resolves
at every read to the currently last assistant message; with no assistant
message the read fails and is caught as the empty string. -/
def readLastAssistant (o : Obs) : List Char :=
  trimChars (o.msgs.getLast?.getD [])

/-- Index of the element `page.locator(SELECTORS.assistantMessage).last()`
resolves to at one poll (the last message in document order), if any. -/
def readIndex (o : Obs) : Option Nat :=
  if o.msgs.length = 0 then none else some (o.msgs.length - 1)

/-- Poll interval of the stabilizing loop: `page.waitForTimeout(250)`. -/
def pollIntervalMs : Nat := 250

/-- Stability threshold: `const stabilityThreshold = 1500`. -/
def stabilityThresholdMs : Nat := 1500

/-- Pause after clicking "Continue generating": `page.waitForTimeout(500)`. -/
def continuePauseMs : Nat := 500

/-- Sub-timeout of the wait for the stop button to appear:
`stopBtn.waitFor({ state: 'visible', timeout: 30000 })`. -/
def startSubTimeoutMs : Nat := 30000

/-- Default overall timeout of `sendPromptAndWait`:
`const timeout = opts.timeout ?? 600000`. -/
def defaultTimeoutMs : Nat := 600000

/-- Mutable state of the stabilizing loop: elapsed ms since `startTime`,
`lastText`, and `stableMs`. -/
structure LoopState where
  elapsed : Nat
  lastText : List Char
  stableMs : Nat
deriving DecidableEq

/-- The timeout epilogue of `waitForResponse` (lines 209-216): a final
best-effort read; non-empty text is returned as a success, otherwise a
timeout error is thrown. -/
def finalRead (trace : Nat → Obs) (i : Nat) : DetectorResult :=
  if readLastAssistant (trace i) = [] then .timeoutError
  else .done (readLastAssistant (trace i))

/-- The stabilizing loop of `waitForResponse` (lines 174-216).  Arguments:
fuel, the current iteration index `i` (the iteration reads `trace i`), and
the loop state.  Each iteration, in source order: re-check the guard
`Date.now() - startTime < timeout`; run `checkErrorStates` (a detected
error is thrown); click a visible "Continue generating" button which
resets `stableMs` and pauses 500 ms; otherwise read and trim the last
assistant message, accumulate `stableMs` while it is non-empty and
unchanged, and return it once `stabilityThreshold` is reached, else loop
after a 250 ms pause.  The fuel only bounds iterations and is never the
binding constraint: callers pass `timeout + 1` fuel, and every iteration
advances `elapsed` by at least 250, so the loop guard always fails before
fuel runs out; fuel exhaustion takes the same epilogue as the guard. -/
def stabilize (trace : Nat → Obs) (timeout : Nat) :
    Nat → Nat → LoopState → DetectorResult
  | 0, i, _ => finalRead trace i
  | fuel + 1, i, st =>
    if st.elapsed < timeout then
      match checkErrorStates (trace i) with
      | some e => e.toResult
      | none =>
        if (trace i).continueVisible then
          stabilize trace timeout fuel (i + 1)
            { elapsed := st.elapsed + continuePauseMs, lastText := st.lastText, stableMs := 0 }
        else
          if readLastAssistant (trace i) ≠ [] ∧ readLastAssistant (trace i) = st.lastText then
            if stabilityThresholdMs ≤ st.stableMs + pollIntervalMs then
              .done (readLastAssistant (trace i))
            else
              stabilize trace timeout fuel (i + 1)
                { elapsed := st.elapsed + pollIntervalMs, lastText := st.lastText,
                  stableMs := st.stableMs + pollIntervalMs }
          else
            stabilize trace timeout fuel (i + 1)
              { elapsed := st.elapsed + pollIntervalMs, lastText := readLastAssistant (trace i),
                stableMs := 0 }
    else finalRead trace i

/-- Pre-stabilization observations of one request (steps 1-3 of
`waitForResponse`): the time at which the busy indicator (stop button)
first becomes visible, if ever; the time it later disappears, if ever;
and whether an assistant message becomes visible within the 10 s wait of
step 3. -/
structure PreObs where
  stopAppearsAt : Option Nat
  stopHidesAt : Option Nat
  assistantAppears : Bool
deriving DecidableEq

/-- Step 1 of `waitForResponse`: `stopBtn.waitFor({ state: 'visible',
timeout: 30000 })` resolves with the appearance time when the stop button
becomes visible within the fixed 30 s sub-timeout, and rejects (is caught)
otherwise.  The bound is the constant `startSubTimeoutMs`, independent of
the request's overall timeout. -/
def awaitStart (stopAppearsAt : Option Nat) : Option Nat :=
  match stopAppearsAt with
  | some t => if t < startSubTimeoutMs then some t else none
  | none => none

/-- Steps 2-4 of `waitForResponse`: the wait for the stop button to
disappear is wrapped in `.catch` and only affects wall-clock time (not
modelled), never the outcome; step 3 throws if no assistant message
becomes visible within its 10 s wait; step 4 is the stabilizing loop,
started with `lastText = ''`, `stableMs = 0` and a fresh `startTime`. -/
def afterAwaitStart (assistantAppears : Bool) (trace : Nat → Obs)
    (timeout : Nat) : DetectorResult :=
  if assistantAppears then
    stabilize trace timeout (timeout + 1) 0 { elapsed := 0, lastText := [], stableMs := 0 }
  else .noAssistantMessage

/-- Model of `waitForResponse(page, beforeCount, timeout)` (src/chatgpt.js
lines 142-217).  Step 1's wait is wrapped in try/catch with both branches
proceeding ("Stop button might not appear for very fast responses,
continue anyway"), so its result is matched but both arms continue.  Note
`beforeCount` is accepted but unused by this variant (it reads `.last()`,
not `.nth(beforeCount)`). -/
def waitForResponse (pre : PreObs) (trace : Nat → Obs) (timeout : Nat) :
    DetectorResult :=
  match awaitStart pre.stopAppearsAt with
  | some _ => afterAwaitStart pre.assistantAppears trace timeout
  | none => afterAwaitStart pre.assistantAppears trace timeout

/-- Model of `sendPromptAndWait` (src/chatgpt.js lines 88-131): the
composer must become visible within its bounded wait (else the call
throws, modelled as `none`); the timeout defaults to 600000; the result is
that of `waitForResponse`.  The submission gestures do not affect the
returned value. -/
def sendPromptAndWait (composerVisible : Bool) (pre : PreObs)
    (trace : Nat → Obs) (timeoutOpt : Option Nat) : Option DetectorResult :=
  if composerVisible then
    some (waitForResponse pre trace (timeoutOpt.getD defaultTimeoutMs))
  else none

/-! ## Locator resolution (src/chatgpt.js SELECTORS) -/

/-- An element of the page, in document order inside a `List DomElem`:
the set of candidate-selector indices it matches, and its visibility. -/
structure DomElem where
  matchedBy : List Nat
  visible : Bool
deriving DecidableEq

/-- What the code does: `page.locator(candidates.join(', ')).first()`.  A
comma-joined CSS selector list matches the union of its candidates, and
`.first()` takes the first matching element in document order; candidate
declaration order and element visibility are not consulted at selection
time. -/
def unionFirst (dom : List DomElem) (cands : List Nat) : Option DomElem :=
  dom.find? (fun e => cands.any (fun c => e.matchedBy.contains c))

/-- Modelled from the spec: locator resolution "attempts each candidate
selector in its fixed priority order, returning the first that currently
matches a visible element" (spec section 4.1).  This is the comparison
definition for the declared-priority-order policy; the code's actual
mechanism is `unionFirst`. -/
def resolveByPriority (dom : List DomElem) (cands : List Nat) : Option DomElem :=
  cands.findSome? (fun c => dom.find? (fun e => e.matchedBy.contains c && e.visible))

/-! ## Request queue (src/server.js lines 23-58) -/

/-- Outcome of a settled promise: fulfilled with a value or rejected with
an error message. -/
inductive POutcome (α : Type) where
  | fulfilled (v : α)
  | rejected (e : List Char)
deriving DecidableEq

/-- Denotation of a promise in the single-threaded virtual-time semantics:
the time at which it settles and its outcome. -/
structure Promise (α : Type) where
  settleAt : Nat
  outcome : POutcome α
deriving DecidableEq

/-- JS `.then`: if the parent rejects, the callback is skipped and the
rejection propagates at the parent's settle time; if it fulfills, the
callback runs at the parent's settle time, taking some duration and
producing the child's outcome. -/
def thenP {α β : Type} (p : Promise α) (f : α → Nat × POutcome β) : Promise β :=
  match p.outcome with
  | .rejected e => ⟨p.settleAt, .rejected e⟩
  | .fulfilled v =>
    let r := f v
    ⟨p.settleAt + r.1, r.2⟩

/-- JS `.catch`: a fulfilled parent passes through; a rejected one runs
the handler at the parent's settle time. -/
def catchP {α : Type} (p : Promise α) (h : List Char → Nat × POutcome α) : Promise α :=
  match p.outcome with
  | .fulfilled _ => p
  | .rejected e =>
    let r := h e
    ⟨p.settleAt + r.1, r.2⟩

/-- One queued request as the queue sees it: the duration `processRequest`
takes for it and the outcome `processRequest` settles with. -/
structure Job where
  dur : Nat
  result : POutcome (List Char)
deriving DecidableEq

/-- The initial queue tail: `let requestQueue = Promise.resolve()`. -/
def initialQueue : Promise Unit := ⟨0, .fulfilled ()⟩

/-- Model of `queueRequest` (src/server.js lines 51-58):
`requestQueue = requestQueue.then(() => processRequest(...)).then(resolve).catch(reject)`.
Returns the begin time of this request's processing (the time the `.then`
callback runs, the tail's settle time), the outer promise handed to the
caller (settled by `resolve`/`reject` exactly when `processRequest`
settles, with its outcome), and the new queue tail (the promise after
`.catch`, fulfilled either way since `resolve`/`reject` return undefined). -/
def queueRequest (tail : Promise Unit) (j : Job) :
    Nat × Promise (List Char) × Promise Unit :=
  let p : Promise (List Char) := thenP tail (fun _ => (j.dur, j.result))
  let newTail : Promise Unit :=
    catchP (thenP p (fun _ => (0, .fulfilled ()))) (fun _ => (0, .fulfilled ()))
  (tail.settleAt, p, newTail)

/-- Enqueue a list of jobs in arrival order, collecting each request's
(begin time, outer promise) and the final queue tail. -/
def enqueueAll (tail : Promise Unit) : List Job → List (Nat × Promise (List Char)) × Promise Unit
  | [] => ([], tail)
  | j :: rest =>
    let q := queueRequest tail j
    let r := enqueueAll q.2.2 rest
    ((q.1, q.2.1) :: r.1, r.2)

/-- Closed form of the schedule produced by the chain starting at time
`t`: request `k` begins when request `k-1` settles and settles `dur`
later with its own result. -/
def schedule : Nat → List Job → List (Nat × Promise (List Char))
  | _, [] => []
  | t, j :: rest => (t, ⟨t + j.dur, j.result⟩) :: schedule (t + j.dur) rest

/-- Total processing duration of a job list. -/
def totalDur : List Job → Nat
  | [] => 0
  | j :: rest => j.dur + totalDur rest

/-! ## HTTP /ask handling (src/server.js lines 76-113) -/

/-- A JSON value as far as the `/ask` body validation is concerned. -/
inductive JsonVal where
  | jnull
  | jbool (b : Bool)
  | jnum (n : Int)
  | jstr (s : List Char)
deriving DecidableEq

/-- JS falsiness of `data.prompt`: `undefined` (absent field), `null`,
`false`, `0`, and the empty string are falsy. -/
def jsFalsy : Option JsonVal → Bool
  | none => true
  | some .jnull => true
  | some (.jbool b) => !b
  | some (.jnum n) => n == 0
  | some (.jstr s) => s.isEmpty

/-- Field lookup in a parsed JSON object. -/
def lookupField (fields : List (List Char × JsonVal)) (k : List Char) : Option JsonVal :=
  (fields.find? (fun f => f.1 == k)).map (fun f => f.2)

/-- The transport-visible effect of one `/ask` request: HTTP status, the
`ok` flag, the `error` string if any, the `text` payload if any, and
whether `queueRequest` was invoked for it. -/
structure AskReply where
  status : Nat
  ok : Bool
  errText : Option (List Char)
  bodyText : Option (List Char)
  enqueued : Bool
deriving DecidableEq

/-- Model of the `POST /ask` branch of `handleRequest` (src/server.js
lines 76-113): an unparseable body is a 400 "Invalid JSON"; a falsy
`data.prompt` is a 400 "Missing prompt" returned before `queueRequest` is
called; otherwise the request is enqueued and its queue outcome becomes a
200 `{ok:true,text}` or a 500 `{ok:false,error}`. -/
def handleAsk (body : Option (List (List Char × JsonVal)))
    (queueOutcome : POutcome (List Char)) : AskReply :=
  match body with
  | none => ⟨400, false, some ("Invalid JSON".toList), none, false⟩
  | some data =>
    if jsFalsy (lookupField data ("prompt".toList)) then
      ⟨400, false, some ("Missing prompt".toList), none, false⟩
    else
      match queueOutcome with
      | .fulfilled t => ⟨200, true, none, some t, true⟩
      | .rejected e => ⟨500, false, some e, none, true⟩

/-! ## Concrete observation streams used by the scenario theorems -/

/-- An observation with no error signals and no continue button, on the
normal chat url, with the given assistant messages. -/
def quietObs (msgs : List (List Char)) : Obs :=
  { url := "https://chatgpt.com".toList, loginVisible := false, toastVisible := false,
    toastText := [], continueVisible := false, msgs := msgs }

/-- A quiet observation with the continue button visible. -/
def continueObs (msgs : List (List Char)) : Obs :=
  { quietObs msgs with continueVisible := true }

/-- A quiet observation with the login button visible. -/
def loginObs (msgs : List (List Char)) : Obs :=
  { quietObs msgs with loginVisible := true }

/-- Pre-stabilization timeline in which the busy indicator appears at
once and disappears one second later, and an assistant message renders. -/
def preNormal : PreObs := ⟨some 0, some 1000, true⟩

/-- Trace for the stability scenario: the text is `"4"` at polls 0-6 with
no further change until the detector has returned; later observations are
deliberately different to show they are not consulted. -/
def traceFour : Nat → Obs := fun n =>
  if n ≤ 6 then quietObs [['4']] else quietObs [['9']]

/-- Trace in which the text grows at every poll and never stabilizes. -/
def traceGrowing : Nat → Obs := fun n => quietObs [List.replicate (n + 1) 'x']

/-- Trace with no assistant message at all. -/
def traceEmpty : Nat → Obs := fun _ => quietObs []

/-- Trace for the continuation scenario: text `"PRE"` at polls 0-1, the
continue button at poll 2, then text `"PREPOST"` from poll 3 on. -/
def traceContinue : Nat → Obs := fun n =>
  if n ≤ 1 then quietObs [['P', 'R', 'E']]
  else if n = 2 then continueObs [['P', 'R', 'E']]
  else quietObs [['P', 'R', 'E', 'P', 'O', 'S', 'T']]

/-- Trace for the session-expiry scenario: partial text at polls 0-1,
then the login control becomes visible at poll 2. -/
def traceLogin : Nat → Obs := fun n =>
  if n ≤ 1 then quietObs [['p', 'a', 'r']] else loginObs [['p', 'a', 'r']]

/-- Trace for the retargeting scenario: one assistant message `"A"` at
poll 0, then a second assistant message `"B"` renders from poll 1 on. -/
def traceTwoMsgs : Nat → Obs := fun n =>
  if n = 0 then quietObs [['A']] else quietObs [['A'], ['B']]

/-- Observation in which both a login control and an error toast are
visible at the same poll. -/
def obsBothSignals : Obs :=
  { url := "https://chatgpt.com".toList, loginVisible := true, toastVisible := true,
    toastText := "Something went wrong".toList, continueVisible := false, msgs := [] }

/-- Document-order page for the locator scenario: a visible element
matching only candidate 2 appears before a visible element matching only
candidate 1; no element matches candidate 0. -/
def elemLater : DomElem := ⟨[2], true⟩

/-- The element matching the higher-priority candidate 1, second in
document order. -/
def elemEarlierCand : DomElem := ⟨[1], true⟩

/-- The page holding the two elements above in document order. -/
def domPriorityFlip : List DomElem := [elemLater, elemEarlierCand]

/-! ## Lemmas about trimming -/

theorem dropWhile_self_idem (p : Char → Bool) (l : List Char) :
    (l.dropWhile p).dropWhile p = l.dropWhile p := by
  induction l with
  | nil => rfl
  | cons a l ih =>
    by_cases h : p a = true
    · simp [List.dropWhile_cons, h, ih]
    · simp [List.dropWhile_cons, h]

theorem length_dropWhile_le' (p : Char → Bool) (l : List Char) :
    (l.dropWhile p).length ≤ l.length := by
  induction l with
  | nil => simp
  | cons a l ih =>
    by_cases h : p a = true
    · rw [List.dropWhile_cons, if_pos h]
      exact Nat.le_trans ih (Nat.le_succ _)
    · rw [List.dropWhile_cons, if_neg h]

theorem head_false_of_dropWhile_self (p : Char → Bool) (c : Char) (t : List Char)
    (h : (c :: t).dropWhile p = c :: t) : p c = false := by
  by_cases hp : p c = true
  · rw [List.dropWhile_cons, if_pos hp] at h
    have hle := length_dropWhile_le' p t
    rw [h] at hle
    simp at hle
  · simpa using hp

theorem dropWhile_getLast?_eq (p : Char → Bool) :
    ∀ l : List Char, l.dropWhile p ≠ [] → (l.dropWhile p).getLast? = l.getLast? := by
  intro l
  induction l with
  | nil => intro h; simp [List.dropWhile] at h
  | cons a l ih =>
    intro h
    by_cases hp : p a = true
    · rw [List.dropWhile_cons, if_pos hp] at h ⊢
      rw [ih h]
      have hl : l ≠ [] := by
        intro he
        rw [he] at h
        simp [List.dropWhile] at h
      cases l with
      | nil => exact absurd rfl hl
      | cons b bs => rw [List.getLast?_cons_cons]
    · rw [List.dropWhile_cons, if_neg hp]

theorem rtrim_idem (l : List Char) : rtrimChars (rtrimChars l) = rtrimChars l := by
  unfold rtrimChars
  rw [List.reverse_reverse, dropWhile_self_idem]

theorem dropWhile_rtrim (l : List Char) (h : l.dropWhile isJsWhitespace = l) :
    (rtrimChars l).dropWhile isJsWhitespace = rtrimChars l := by
  cases hx : rtrimChars l with
  | nil => simp
  | cons c t =>
    have hne : l.reverse.dropWhile isJsWhitespace ≠ [] := by
      intro he
      rw [rtrimChars, he] at hx
      simp at hx
    have hlne : l ≠ [] := by
      intro he
      rw [he] at hne
      simp [List.dropWhile] at hne
    have hhead : (rtrimChars l).head? = l.head? := by
      rw [rtrimChars, List.head?_reverse, dropWhile_getLast?_eq _ _ hne,
        List.getLast?_reverse]
    cases l with
    | nil => exact absurd rfl hlne
    | cons c0 t0 =>
      rw [hx] at hhead
      simp at hhead
      have hc : isJsWhitespace c = false := by
        rw [hhead]
        exact head_false_of_dropWhile_self _ _ _ h
      rw [List.dropWhile_cons, if_neg (by simp [hc])]

theorem trimChars_eq_rtrim (s : List Char) :
    trimChars s = rtrimChars (s.dropWhile isJsWhitespace) := rfl

theorem trimChars_idem (s : List Char) : trimChars (trimChars s) = trimChars s := by
  rw [trimChars_eq_rtrim s, trimChars_eq_rtrim,
    dropWhile_rtrim _ (dropWhile_self_idem isJsWhitespace s), rtrim_idem]

theorem getLast?_getD_eq_getD (d : List Char) :
    ∀ l : List (List Char), l ≠ [] → l.getLast?.getD d = l.getD (l.length - 1) d := by
  intro l
  induction l with
  | nil => intro h; exact absurd rfl h
  | cons a l ih =>
    intro _
    cases l with
    | nil => rfl
    | cons b bs =>
      rw [List.getLast?_cons_cons, ih (by simp)]
      have h1 : (a :: b :: bs).length - 1 = bs.length + 1 := by simp
      have h2 : (b :: bs).length - 1 = bs.length := by simp
      rw [h1, h2, List.getD_cons_succ]

/-! ## Lemmas about the detector -/

theorem finalRead_iff (trace : Nat → Obs) (i : Nat) :
    (finalRead trace i = .timeoutError ↔ readLastAssistant (trace i) = [])
    ∧ (readLastAssistant (trace i) ≠ [] →
        finalRead trace i = .done (readLastAssistant (trace i))) := by
  by_cases h : readLastAssistant (trace i) = [] <;> simp [finalRead, h]

theorem finalRead_done_props (trace : Nat → Obs) (i : Nat) (t : List Char)
    (h : finalRead trace i = .done t) : t ≠ [] ∧ trimChars t = t := by
  unfold finalRead at h
  by_cases hr : readLastAssistant (trace i) = []
  · rw [if_pos hr] at h
    exact absurd h (by simp)
  · rw [if_neg hr] at h
    injection h with ht
    subst ht
    refine ⟨hr, ?_⟩
    simp only [readLastAssistant]
    exact trimChars_idem _

theorem stabilize_done_props :
    ∀ (fuel : Nat) (trace : Nat → Obs) (timeout i : Nat) (st : LoopState) (t : List Char),
      stabilize trace timeout fuel i st = .done t → t ≠ [] ∧ trimChars t = t := by
  intro fuel
  induction fuel with
  | zero =>
    intro trace timeout i st t h
    exact finalRead_done_props trace i t h
  | succ f ih =>
    intro trace timeout i st t h
    rw [stabilize] at h
    split at h
    · split at h
      · rename_i e _
        cases e <;> simp [PollErr.toResult] at h
      · split at h
        · exact ih trace timeout _ _ t h
        · split at h
          · split at h
            · rename_i hcond _
              injection h with ht
              subst ht
              refine ⟨hcond.1, ?_⟩
              simp only [readLastAssistant]
              exact trimChars_idem _
            · exact ih trace timeout _ _ t h
          · exact ih trace timeout _ _ t h
    · exact finalRead_done_props trace i t h

/-! ## Claim theorems -/

/-- C2: in the STABILIZING phase, with the busy indicator having appeared
then disappeared and the response text read as "4" repeatedly at the poll
interval with no further change, the detector yields a successful `done`
with text "4".  (The code's stability bar is 1500 ms = six identical
reads after the first, a stricter multiple of the poll interval than the
spec's minimum of two; observations after the detector has returned are
deliberately different in `traceFour` to show they are not consulted.) -/
theorem c2_stability_yields_done :
    waitForResponse preNormal traceFour defaultTimeoutMs = .done ['4'] := by
  decide

/-- C3: when the overall timeout has elapsed in a non-terminal state, the
stabilizing loop takes a best-effort final read and yields `timeoutError`
if and only if that read is empty; a non-empty final read is returned as
a success carrying exactly that text.  The closed conjuncts run the whole
detector on a never-stabilizing trace (timing out with partial text
"xxxxx", reported as success) and on an empty trace (timing out with a
`timeoutError`). -/
theorem c3_timeout_final_read :
    (∀ (trace : Nat → Obs) (timeout fuel i : Nat) (st : LoopState),
      timeout ≤ st.elapsed →
      (stabilize trace timeout fuel i st = .timeoutError ↔ readLastAssistant (trace i) = [])
      ∧ (readLastAssistant (trace i) ≠ [] →
          stabilize trace timeout fuel i st = .done (readLastAssistant (trace i))))
    ∧ waitForResponse preNormal traceGrowing 1000 = .done (List.replicate 5 'x')
    ∧ waitForResponse preNormal traceEmpty 1000 = .timeoutError := by
  refine ⟨?_, by decide, by decide⟩
  intro trace timeout fuel i st hle
  have hred : stabilize trace timeout fuel i st = finalRead trace i := by
    cases fuel with
    | zero => rw [stabilize]
    | succ f => rw [stabilize, if_neg (by omega)]
  rw [hred]
  exact finalRead_iff trace i

/-- Witness for C3 at a concrete loop-exit state of the growing trace. -/
theorem c3_witness :
    (1000 : Nat) ≤ 1000
    ∧ (stabilize traceGrowing 1000 900 4 ⟨1000, List.replicate 4 'x', 0⟩ = .timeoutError
        ↔ readLastAssistant (traceGrowing 4) = [])
    ∧ (readLastAssistant (traceGrowing 4) ≠ [] →
        stabilize traceGrowing 1000 900 4 ⟨1000, List.replicate 4 'x', 0⟩ =
          .done (readLastAssistant (traceGrowing 4))) := by
  refine ⟨by decide, ?_⟩
  exact c3_timeout_final_read.1 traceGrowing 1000 900 4 ⟨1000, List.replicate 4 'x', 0⟩
    (by decide)

/-- C10: every text the detector returns as a success, on the stabilized
path as well as on the timeout-with-partial-text path, is non-empty and
equal to its own trim, so `sendPromptAndWait` never resolves successfully
with an empty or untrimmed string. -/
theorem c10_success_text_trimmed :
    ∀ (c : Bool) (pre : PreObs) (trace : Nat → Obs) (topt : Option Nat) (t : List Char),
      sendPromptAndWait c pre trace topt = some (.done t) →
      t ≠ [] ∧ trimChars t = t := by
  intro c pre trace topt t h
  unfold sendPromptAndWait at h
  by_cases hc : c = true
  · rw [if_pos hc] at h
    injection h with h
    unfold waitForResponse at h
    cases ha : awaitStart pre.stopAppearsAt <;> rw [ha] at h <;>
      unfold afterAwaitStart at h <;>
      by_cases hm : pre.assistantAppears = true
    · rw [if_pos hm] at h
      exact stabilize_done_props _ trace _ 0 _ t h
    · rw [if_neg hm] at h
      exact absurd h (by simp)
    · rw [if_pos hm] at h
      exact stabilize_done_props _ trace _ 0 _ t h
    · rw [if_neg hm] at h
      exact absurd h (by simp)
  · rw [if_neg hc] at h
    exact absurd h (by simp)

/-- Witness for C10 on the concrete stable-text scenario. -/
theorem c10_witness :
    sendPromptAndWait true preNormal traceFour none = some (.done ['4'])
    ∧ ['4'] ≠ [] ∧ trimChars ['4'] = ['4'] :=
  ⟨by decide, c10_success_text_trimmed true preNormal traceFour none ['4'] (by decide)⟩

/-- C5 counterexample: at a poll where both a login control and an error
banner are visible, `checkErrorStates` classifies the outcome as
`sessionExpired`, not as `upstreamError` with the banner's text — so the
claim's "UpstreamError whenever an error banner is visible" fails as
stated at this concrete observation. -/
theorem c5_counterexample :
    checkErrorStates obsBothSignals = some PollErr.sessionExpired
    ∧ obsBothSignals.toastVisible = true
    ∧ PollErr.sessionExpired ≠ PollErr.upstreamError (trimChars obsBothSignals.toastText) := by
  decide

/-- C5 (amended): during STABILIZING polls, an auth-boundary URL or a
visible login control classifies the outcome as `sessionExpired`; a
visible error banner classifies it as `upstreamError` carrying the
banner's trimmed text when no auth signal is present (the auth checks
take precedence); a detected error immediately terminates the loop with
that classification, and an error classification is never a `done`
result, so no partial text is returned. -/
theorem c5_error_classification :
    (∀ o : Obs,
      (urlIncludes o.url ("/auth".toList)
        || urlIncludes o.url ("login.openai.com".toList)) = true ∨ o.loginVisible = true →
      checkErrorStates o = some PollErr.sessionExpired)
    ∧ (∀ o : Obs,
      (urlIncludes o.url ("/auth".toList)
        || urlIncludes o.url ("login.openai.com".toList)) = false →
      o.loginVisible = false → o.toastVisible = true →
      checkErrorStates o = some (PollErr.upstreamError (trimChars o.toastText)))
    ∧ (∀ (trace : Nat → Obs) (timeout fuel i : Nat) (st : LoopState) (e : PollErr),
      st.elapsed < timeout → checkErrorStates (trace i) = some e →
      stabilize trace timeout (fuel + 1) i st = e.toResult)
    ∧ (∀ (d : List Char) (e : PollErr), e.toResult ≠ .done d) := by
  refine ⟨?_, ?_, ?_, ?_⟩
  · intro o h
    rcases h with h | h
    · unfold checkErrorStates
      rw [if_pos h]
    · unfold checkErrorStates
      by_cases hu : (urlIncludes o.url ("/auth".toList)
        || urlIncludes o.url ("login.openai.com".toList)) = true
      · rw [if_pos hu]
      · rw [if_neg hu, if_pos h]
  · intro o hu hl ht
    unfold checkErrorStates
    rw [if_neg (by rw [hu]; simp), if_neg (by rw [hl]; simp), if_pos ht]
  · intro trace timeout fuel i st e hg he
    simp [stabilize, hg, he]
  · intro d e
    cases e <;> simp [PollErr.toResult]

/-- Witness for C5 (amended) on the spec's scenario: the login control
becomes visible at poll 2 of `traceLogin` while partial text "par" has
been read; the poll classifies as `sessionExpired`, the loop terminates
with that failure, and the whole detector run yields `sessionExpired`
rather than any partial text. -/
theorem c5_witness :
    (checkErrorStates (traceLogin 2) = some PollErr.sessionExpired ∧ (500 : Nat) < 600000)
    ∧ stabilize traceLogin 600000 (10 + 1) 2 ⟨500, "par".toList, 250⟩ =
        PollErr.sessionExpired.toResult
    ∧ waitForResponse preNormal traceLogin 600000 = DetectorResult.sessionExpired :=
  ⟨⟨by decide, by decide⟩,
   c5_error_classification.2.2.1 traceLogin 600000 10 2 ⟨500, "par".toList, 250⟩
     PollErr.sessionExpired (by decide) (by decide),
   by decide⟩

/-- C6: on every STABILIZING poll where the continuation control is
present (and no error fires, which the code checks first), the detector
activates it and resets the stability accumulator to zero at that poll,
continuing the loop after the 500 ms pause; and on the concrete
continuation scenario the final returned text is the post-continuation
content "PREPOST", not the pre-continuation prefix "PRE". -/
theorem c6_continue_resets :
    (∀ (trace : Nat → Obs) (timeout fuel i : Nat) (st : LoopState),
      st.elapsed < timeout →
      checkErrorStates (trace i) = none →
      (trace i).continueVisible = true →
      stabilize trace timeout (fuel + 1) i st =
        stabilize trace timeout fuel (i + 1)
          { elapsed := st.elapsed + continuePauseMs, lastText := st.lastText, stableMs := 0 })
    ∧ waitForResponse preNormal traceContinue defaultTimeoutMs = .done ("PREPOST".toList) := by
  constructor
  · intro trace timeout fuel i st hg he hc
    simp [stabilize, hg, he, hc]
  · decide

/-- Witness for C6 at the continuation poll of the concrete scenario. -/
theorem c6_witness :
    ((500 : Nat) < 600000 ∧ checkErrorStates (traceContinue 2) = none
      ∧ (traceContinue 2).continueVisible = true)
    ∧ stabilize traceContinue 600000 (10 + 1) 2 ⟨500, "PRE".toList, 250⟩ =
        stabilize traceContinue 600000 10 3 ⟨1000, "PRE".toList, 0⟩ :=
  ⟨⟨by decide, by decide, by decide⟩,
   c6_continue_resets.1 traceContinue 600000 10 2 ⟨500, "PRE".toList, 250⟩
     (by decide) (by decide) (by decide)⟩

/-- C7 counterexample: on a trace where a second assistant message
renders after the first poll, the re-resolving `.last()` target changes
mid-request — poll 0 reads message index 0 (text "A"), poll 1 reads
message index 1 (text "B") — and the detector's returned text "B" is the
text of the newly rendered message, not of the initially observed target.
The claim's "every stability read observes the same message target" fails
as stated on this concrete run. -/
theorem c7_counterexample :
    waitForResponse preNormal traceTwoMsgs defaultTimeoutMs = .done ['B']
    ∧ readIndex (traceTwoMsgs 0) = some 0
    ∧ readIndex (traceTwoMsgs 1) = some 1
    ∧ readLastAssistant (traceTwoMsgs 0) = ['A']
    ∧ readLastAssistant (traceTwoMsgs 1) = ['B'] := by
  decide

/-- C7 (amended): the detector's target locator is constructed once per
request but re-resolves at every read to the currently last assistant
message; two polls observe the same target whenever the assistant-message
count is unchanged, and every read observes the message at the last index
— so when additional assistant messages render mid-poll, subsequent reads
observe the newest message instead of the original target. -/
theorem c7_target_follows_last :
    (∀ o o' : Obs, o.msgs.length = o'.msgs.length → readIndex o = readIndex o')
    ∧ (∀ (o : Obs) (k : Nat), readIndex o = some k →
        readLastAssistant o = trimChars (o.msgs.getD k [])) := by
  constructor
  · intro o o' h
    unfold readIndex
    rw [h]
  · intro o k hk
    unfold readIndex at hk
    by_cases h0 : o.msgs.length = 0
    · rw [if_pos h0] at hk
      cases hk
    · rw [if_neg h0] at hk
      injection hk with hk
      subst hk
      unfold readLastAssistant
      rw [getLast?_getD_eq_getD [] o.msgs (by
        intro he
        apply h0
        rw [he]
        rfl)]

/-- Witness for C7 (amended) at concrete two-message observations. -/
theorem c7_witness :
    ((quietObs [['A'], ['B']]).msgs.length = (quietObs [['X'], ['Y']]).msgs.length
      ∧ readIndex (quietObs [['A'], ['B']]) = readIndex (quietObs [['X'], ['Y']]))
    ∧ (readIndex (quietObs [['A'], ['B']]) = some 1
      ∧ readLastAssistant (quietObs [['A'], ['B']]) =
          trimChars ((quietObs [['A'], ['B']]).msgs.getD 1 [])) :=
  ⟨⟨by decide, c7_target_follows_last.1 _ _ (by decide)⟩,
   ⟨by decide, c7_target_follows_last.2 (quietObs [['A'], ['B']]) 1 (by decide)⟩⟩

/-- C8: the AWAITING_START wait for the busy indicator is bounded by the
constant `startSubTimeoutMs` = 30000, which is 5 percent of the 600000 ms
default overall timeout and independent of the requested timeout (the
whole detector outcome is independent of the busy-indicator timeline);
and when the indicator never appears within the sub-timeout the detector
proceeds to the generating/stabilizing phases rather than entering any
failure state. -/
theorem c8_start_sub_timeout :
    startSubTimeoutMs * 20 = defaultTimeoutMs
    ∧ (∀ (a a' h h' : Option Nat) (m : Bool) (trace : Nat → Obs) (timeout : Nat),
        waitForResponse ⟨a, h, m⟩ trace timeout = waitForResponse ⟨a', h', m⟩ trace timeout)
    ∧ (∀ (a h : Option Nat) (m : Bool) (trace : Nat → Obs) (timeout : Nat),
        awaitStart a = none →
        waitForResponse ⟨a, h, m⟩ trace timeout = afterAwaitStart m trace timeout) := by
  refine ⟨by decide, ?_, ?_⟩
  · intro a a' h h' m trace timeout
    unfold waitForResponse
    cases awaitStart a <;> cases awaitStart a' <;> rfl
  · intro a h m trace timeout ha
    unfold waitForResponse
    rw [ha]

/-- Witness for C8 with a busy indicator that never appears: the run
proceeds to the post-start phases. -/
theorem c8_witness :
    awaitStart none = none
    ∧ waitForResponse ⟨none, none, true⟩ traceFour 600000 =
        afterAwaitStart true traceFour 600000 :=
  ⟨by decide, c8_start_sub_timeout.2.2 none none true traceFour 600000 (by decide)⟩

/-! ## Lemmas about the request queue -/

theorem queueRequest_of_fulfilled (t : Nat) (j : Job) :
    queueRequest ⟨t, .fulfilled ()⟩ j =
      (t, ⟨t + j.dur, j.result⟩, ⟨t + j.dur, .fulfilled ()⟩) := by
  cases hr : j.result <;> simp [queueRequest, thenP, catchP, hr]

theorem enqueueAll_of_fulfilled : ∀ (jobs : List Job) (t : Nat),
    enqueueAll ⟨t, .fulfilled ()⟩ jobs =
      (schedule t jobs, ⟨t + totalDur jobs, .fulfilled ()⟩) := by
  intro jobs
  induction jobs with
  | nil => intro t; simp [enqueueAll, schedule, totalDur]
  | cons j rest ih =>
    intro t
    simp [enqueueAll, queueRequest_of_fulfilled, ih, schedule, totalDur, Nat.add_assoc]

theorem schedule_get?_outcome : ∀ (jobs : List Job) (t k : Nat),
    ((schedule t jobs)[k]?).map (fun bp => bp.2.outcome)
      = (jobs[k]?).map (fun j => j.result) := by
  intro jobs
  induction jobs with
  | nil => intro t k; simp [schedule]
  | cons j rest ih =>
    intro t k
    cases k with
    | zero => simp [schedule]
    | succ n => simp [schedule, ih]

theorem schedule_get?_zero_fst : ∀ (jobs : List Job) (t b : Nat) (p : Promise (List Char)),
    (schedule t jobs)[0]? = some (b, p) → b = t := by
  intro jobs t b p h
  cases jobs with
  | nil => simp [schedule] at h
  | cons j rest =>
    simp [schedule] at h
    exact h.1.symm

theorem schedule_consecutive : ∀ (jobs : List Job) (t k b b' : Nat)
    (p p' : Promise (List Char)),
    (schedule t jobs)[k]? = some (b, p) →
    (schedule t jobs)[k + 1]? = some (b', p') →
    b' = p.settleAt := by
  intro jobs
  induction jobs with
  | nil => intro t k b b' p p' h _; simp [schedule] at h
  | cons j rest ih =>
    intro t k b b' p p' h h'
    cases k with
    | zero =>
      simp [schedule] at h h'
      rw [schedule_get?_zero_fst rest (t + j.dur) b' p' h', ← h.2]
    | succ n =>
      simp [schedule] at h h'
      exact ih (t + j.dur) n b b' p p' h h'

/-- C1: requests are processed strictly one at a time in FIFO arrival
order.  Each entry of `enqueueAll initialQueue jobs` holds the time a
request's processing begins and the caller's result promise: request
`k+1`'s processing begins exactly when request `k`'s result promise
settles, and each result promise settles with its own job's outcome — so
a rejected (failed) request neither blocks nor alters the processing of
the next queued request on the same chain (the shared Session). -/
theorem c1_fifo_serialization :
    (∀ (jobs : List Job) (k : Nat),
      (((enqueueAll initialQueue jobs).1[k]?).map (fun bp => bp.2.outcome))
        = (jobs[k]?).map (fun j => j.result))
    ∧ (∀ (jobs : List Job) (k : Nat) (b b' : Nat) (p p' : Promise (List Char)),
      (enqueueAll initialQueue jobs).1[k]? = some (b, p) →
      (enqueueAll initialQueue jobs).1[k + 1]? = some (b', p') →
      b' = p.settleAt) := by
  constructor
  · intro jobs k
    have h := enqueueAll_of_fulfilled jobs 0
    unfold initialQueue
    rw [h]
    exact schedule_get?_outcome jobs 0 k
  · intro jobs k b b' p p' h1 h2
    unfold initialQueue at h1 h2
    rw [enqueueAll_of_fulfilled jobs 0] at h1 h2
    exact schedule_consecutive jobs 0 k b b' p p' h1 h2

/-- Witness for C1 on a three-request chain whose middle request fails:
request 2's result is still its own fulfilled outcome, and request 2's
begin time equals the settle time of request 1's (rejected) promise. -/
theorem c1_witness :
    (((enqueueAll initialQueue
        [⟨3, .fulfilled ['a']⟩, ⟨5, .rejected ['b']⟩, ⟨2, .fulfilled ['c']⟩]).1[2]?).map
        (fun bp => bp.2.outcome) = some (POutcome.fulfilled ['c']))
    ∧ (8 : Nat) = (Promise.mk 8 (POutcome.rejected ['b']) : Promise (List Char)).settleAt :=
  ⟨(c1_fifo_serialization.1
      [⟨3, .fulfilled ['a']⟩, ⟨5, .rejected ['b']⟩, ⟨2, .fulfilled ['c']⟩] 2).trans (by decide),
   c1_fifo_serialization.2
      [⟨3, .fulfilled ['a']⟩, ⟨5, .rejected ['b']⟩, ⟨2, .fulfilled ['c']⟩] 1 3 8
      (Promise.mk 8 (POutcome.rejected ['b'])) (Promise.mk 10 (POutcome.fulfilled ['c']) : Promise (List Char))
      (by decide) (by decide)⟩

/-- C9: a parsed `/ask` body whose `prompt` field is absent or the empty
string (both falsy in JS) is answered 400 `{ok:false, error:"Missing
prompt"}` and is never enqueued against the session, regardless of what
the queue would have produced. -/
theorem c9_missing_prompt :
    ∀ (data : List (List Char × JsonVal)) (q : POutcome (List Char)),
      lookupField data ("prompt".toList) = none
        ∨ lookupField data ("prompt".toList) = some (JsonVal.jstr []) →
      handleAsk (some data) q =
        ⟨400, false, some ("Missing prompt".toList), none, false⟩ := by
  intro data q h
  rcases h with h | h <;> simp only [handleAsk] <;> rw [h] <;> rfl

/-- Witness for C9: an absent prompt field and an empty-string prompt are
both rejected with 400 and not enqueued. -/
theorem c9_witness :
    handleAsk (some []) (POutcome.fulfilled ['x']) =
      ⟨400, false, some ("Missing prompt".toList), none, false⟩
    ∧ handleAsk (some [(("prompt".toList), JsonVal.jstr [])]) (POutcome.fulfilled ['x']) =
      ⟨400, false, some ("Missing prompt".toList), none, false⟩ :=
  ⟨c9_missing_prompt [] (POutcome.fulfilled ['x']) (Or.inl (by decide)),
   c9_missing_prompt [(("prompt".toList), JsonVal.jstr [])] (POutcome.fulfilled ['x'])
     (Or.inr (by decide))⟩

/-- C4: on a page where a visible element matching only the
lowest-priority candidate precedes (in document order) a visible element
matching only a higher-priority candidate, the code's comma-joined union
locator with `.first()` returns the document-first element, while the
spec's declared-priority resolution returns the higher-priority
candidate's element — the code does not implement its documented
candidate-priority order. -/
theorem c4_union_first_ignores_priority :
    unionFirst domPriorityFlip [0, 1, 2] = some elemLater
    ∧ resolveByPriority domPriorityFlip [0, 1, 2] = some elemEarlierCand
    ∧ elemLater ≠ elemEarlierCand := by
  decide

end ChatgptRelay
